import Mathlib

/-!
Shallow embedding of the AutoRBI repository (user CRUD, admin analytics
service, UI pagination, view state, Excel upload gating), with theorems
checking the specification's claims against it.
-/

/-! ## Passwords (user_crud.py lines 5-13)

The hashing itself is delegated to the external passlib library
(CryptContext with the argon2 scheme), which is not part of this
repository.  We model it by its documented contract: hashing draws a
salt and stores it alongside a digest of (salt, password); verification
recomputes the digest from the stored salt. -/

/-- Modelled from the spec: the argon2 digest of passlib's CryptContext,
absent from src; a deterministic digest of the salt and the password
standing in for the key-derivation function. -/
def strDigest (salt : Nat) (s : String) : Nat :=
  s.foldl (fun a c => a * 1114112 + c.toNat + 1) salt

/-- A stored password hash: the salt chosen at hashing time plus the
digest, standing in for the PHC-format string passlib produces. -/
structure HashedPassword where
  salt : Nat
  digest : Nat
deriving Repr, DecidableEq

/-- user_crud.hash_password; the salt models passlib's internal RNG draw. -/
def hash_password (salt : Nat) (password : String) : HashedPassword :=
  HashedPassword.mk salt (strDigest salt password)

/-- user_crud.verify_password: recompute the digest from the stored salt. -/
def verify_password (plain_pw : String) (hashed_pw : HashedPassword) : Bool :=
  strDigest hashed_pw.salt plain_pw == hashed_pw.digest

/-! ## normalize_user_status (user_crud.py lines 16-24)

The Python input is any value; the function immediately takes `str(value)`
after the `None` check, so the input is modelled as `Option String`, the
string being `str(value)`.  Python's builtin str.strip and str.lower are
modelled character-wise (ASCII case mapping, Python's whitespace set). -/

/-- Python's str.isspace test for a character: space or \t \n \v \f \r. -/
def pyIsSpace (c : Char) : Bool :=
  c.toNat == 32 || (9 ≤ c.toNat && c.toNat ≤ 13)

/-- ASCII lower-casing of one character, as Python str.lower does on ASCII. -/
def pyToLower (c : Char) : Char :=
  if 65 ≤ c.toNat ∧ c.toNat ≤ 90 then Char.ofNat (c.toNat + 32) else c

/-- Python str.strip(): drop leading and trailing whitespace. -/
def pyStrip (s : String) : String :=
  ⟨((s.data.dropWhile pyIsSpace).reverse.dropWhile pyIsSpace).reverse⟩

/-- Python str.lower(). -/
def pyLower (s : String) : String :=
  ⟨s.data.map pyToLower⟩

/-- user_crud.normalize_user_status. -/
def normalize_user_status : Option String → Option String
  | none => none
  | some value =>
    let v := pyLower (pyStrip value)
    if v ∈ ["active", "a", "enabled", "yes", "true", "1"] then some "Active"
    else if v ∈ ["inactive", "i", "disabled", "no", "false", "0"] then some "Inactive"
    else none

/-- C1: password hash/verify round-trip: for every password string p (and
every salt the library may draw), verify_password p (hash_password p)
returns true. -/
theorem password_hash_verify_roundtrip (salt : Nat) (p : String) :
    verify_password p (hash_password salt p) = true := by
  simp [verify_password, hash_password]

/-- C2: normalize_user_status maps None to None; a string whose trimmed
lower-casing is among the active spellings to "Active"; among the inactive
spellings to "Inactive"; and anything else to None. -/
theorem normalize_user_status_spec :
    normalize_user_status none = none ∧
    ∀ s : String,
      (pyLower (pyStrip s) ∈ ["active", "a", "enabled", "yes", "true", "1"] →
        normalize_user_status (some s) = some "Active") ∧
      (pyLower (pyStrip s) ∈ ["inactive", "i", "disabled", "no", "false", "0"] →
        normalize_user_status (some s) = some "Inactive") ∧
      (pyLower (pyStrip s) ∉ ["active", "a", "enabled", "yes", "true", "1"] →
        pyLower (pyStrip s) ∉ ["inactive", "i", "disabled", "no", "false", "0"] →
        normalize_user_status (some s) = none) := by
  refine ⟨rfl, fun s => ⟨fun h => ?_, fun h => ?_, fun h1 h2 => ?_⟩⟩
  · simp [normalize_user_status, h]
  · simp only [List.mem_cons, List.not_mem_nil, or_false] at h
    rcases h with h | h | h | h | h | h <;> simp [normalize_user_status, h]
  · simp [normalize_user_status, h1, h2]

/-- Witness for C2 at concrete inputs. -/
theorem normalize_user_status_spec_witness :
    normalize_user_status (some "YES") = some "Active" ∧
    normalize_user_status (some "0") = some "Inactive" ∧
    normalize_user_status (some "junk") = none :=
  ⟨(normalize_user_status_spec.2 "YES").1 (by decide),
   (normalize_user_status_spec.2 "0").2.1 (by decide),
   (normalize_user_status_spec.2 "junk").2.2 (by decide) (by decide)⟩

/-! ## The User model and CRUD operations (user_crud.py lines 28-125)

The ORM-backed table is modelled as a list of User records; `db.commit()`
makes the mutation of the object returned by a query visible in the list,
which is modelled by replacing the first record matching the query (the
`.first()` call).  `models.py` is not in src; the User record's fields are
those read and written by the code in src (user_id primary key, username,
full_name, email, password, role, status). -/

structure User where
  user_id : Nat
  username : String
  full_name : String
  email : Option String
  password : HashedPassword
  role : String
  status : String
deriving Repr, DecidableEq

/-- The autoincrement primary key the ORM assigns on insert. -/
def next_user_id (db : List User) : Nat :=
  db.foldl (fun m u => max m u.user_id) 0 + 1

/-- user_crud.get_user_by_id: first record with the given user_id. -/
def get_user_by_id (db : List User) (user_id : Nat) : Option User :=
  db.find? (fun u => u.user_id == user_id)

/-- Commit of a mutation made through a `.first()` query result: replace
the first record satisfying p by its mutated version. -/
def updateFirst (p : User → Bool) (f : User → User) : List User → List User
  | [] => []
  | u :: us => if p u then f u :: us else u :: updateFirst p f us

/-- user_crud.create_user (the Python default for role is "Engineer"); the
salt models the hashing library's RNG draw.  Returns the new table and the
inserted user. -/
def create_user (db : List User) (salt : Nat)
    (username full_name password role : String) : List User × User :=
  let user : User :=
    { user_id := next_user_id db, username := username, full_name := full_name,
      email := none, password := hash_password salt password, role := role,
      status := "Active" }
  (db ++ [user], user)

/-- user_crud.register_engineer: create_user with role fixed to Engineer. -/
def register_engineer (db : List User) (salt : Nat)
    (username full_name password : String) : List User × User :=
  create_user db salt username full_name password "Engineer"

/-- The `updates` dict of admin_update_user.  A field is `none` when its
key is absent.  The value under "status" may itself be Python None, hence
the nested Option. -/
structure UserUpdates where
  full_name : Option String
  username : Option String
  role : Option String
  status : Option (Option String)
  password : Option String
deriving Repr

/-- The `if "full_name" in updates:` assignment of admin_update_user. -/
def applyFullNameKey (fn : Option String) (user : User) : User :=
  match fn with
  | some v => { user with full_name := v }
  | none => user

/-- The `if "username" in updates:` assignment of admin_update_user. -/
def applyUsernameKey (un : Option String) (user : User) : User :=
  match un with
  | some v => { user with username := v }
  | none => user

/-- The `if "role" in updates:` assignment of admin_update_user. -/
def applyRoleKey (r : Option String) (user : User) : User :=
  match r with
  | some v => { user with role := v }
  | none => user

/-- The `if "password" in updates:` assignment of admin_update_user. -/
def applyPasswordKey (salt : Nat) (pw : Option String) (user : User) : User :=
  match pw with
  | some v => { user with password := hash_password salt v }
  | none => user

/-- The field mutations admin_update_user performs, in source order, on
the user object it fetched; a ValueError raised on an unrecognized status
is the error case. -/
def admin_apply (salt : Nat) (updates : UserUpdates) (user : User) :
    Except String User :=
  let user := applyFullNameKey updates.full_name user
  let user := applyUsernameKey updates.username user
  let user := applyRoleKey updates.role user
  match updates.status with
  | some sv =>
    match normalize_user_status sv with
    | none =>
      Except.error ("Invalid user status: " ++
        (match sv with | some s => s | none => "None"))
    | some ns =>
      Except.ok (applyPasswordKey salt updates.password { user with status := ns })
  | none =>
    Except.ok (applyPasswordKey salt updates.password user)

/-- user_crud.admin_update_user.  `.ok (db, none)` is the early `return
None` for a missing user (no commit); `.error` is the ValueError (raised
before `db.commit()`, so the table is unchanged); `.ok (db2, some u)` is
the committed update. -/
def admin_update_user (db : List User) (salt : Nat) (user_id : Nat)
    (updates : UserUpdates) : Except String (List User × Option User) :=
  match get_user_by_id db user_id with
  | none => Except.ok (db, none)
  | some user =>
    match admin_apply salt updates user with
    | Except.error e => Except.error e
    | Except.ok user2 =>
      Except.ok (updateFirst (fun u => u.user_id == user_id) (fun _ => user2) db,
        some user2)

/-- The `if full_name:` assignment of engineer_update_self: a Python
truthiness test, so None and the empty string are skipped. -/
def truthyFullName (fn : Option String) (user : User) : User :=
  match fn with
  | some v => if v = "" then user else { user with full_name := v }
  | none => user

/-- The `if password:` assignment of engineer_update_self. -/
def truthyPassword (salt : Nat) (pw : Option String) (user : User) : User :=
  match pw with
  | some v => if v = "" then user else { user with password := hash_password salt v }
  | none => user

/-- user_crud.engineer_update_self. -/
def engineer_update_self (db : List User) (salt : Nat) (user_id : Nat)
    (full_name password : Option String) : List User × Option User :=
  match get_user_by_id db user_id with
  | none => (db, none)
  | some user =>
    let user := truthyPassword salt password (truthyFullName full_name user)
    (updateFirst (fun u => u.user_id == user_id) (fun _ => user) db, some user)

/-- user_crud.deactivate_user: soft delete, sets status to "Inactive". -/
def deactivate_user (db : List User) (user_id : Nat) : List User × Option User :=
  match get_user_by_id db user_id with
  | none => (db, none)
  | some user =>
    let user2 := { user with status := "Inactive" }
    (updateFirst (fun u => u.user_id == user_id) (fun _ => user2) db, some user2)

/-! ## Lemmas about updateFirst and find? -/

theorem mem_updateFirst {p : User → Bool} {f : User → User} :
    ∀ {db : List User} {v : User},
      v ∈ updateFirst p f db → v ∈ db ∨ ∃ u, u ∈ db ∧ v = f u := by
  intro db
  induction db with
  | nil => intro v h; simp [updateFirst] at h
  | cons a as ih =>
    intro v h
    rw [updateFirst] at h
    by_cases hp : p a
    · rw [if_pos hp] at h
      rcases List.mem_cons.mp h with h | h
      · exact Or.inr ⟨a, List.mem_cons_self a as, h⟩
      · exact Or.inl (List.mem_cons_of_mem a h)
    · rw [if_neg hp] at h
      rcases List.mem_cons.mp h with h | h
      · exact Or.inl (h ▸ List.mem_cons_self a as)
      · rcases ih h with h | ⟨u, hu, rfl⟩
        · exact Or.inl (List.mem_cons_of_mem a h)
        · exact Or.inr ⟨u, List.mem_cons_of_mem a hu, rfl⟩

theorem updateFirst_of_find?_none {p : User → Bool} {f : User → User} :
    ∀ {db : List User}, db.find? p = none → updateFirst p f db = db := by
  intro db
  induction db with
  | nil => intro _; rfl
  | cons a as ih =>
    intro h
    by_cases hp : p a
    · rw [List.find?_cons_of_pos _ hp] at h; exact absurd h (by simp)
    · rw [List.find?_cons_of_neg _ hp] at h
      rw [updateFirst, if_neg hp, ih h]

theorem find?_updateFirst {p : User → Bool} {f : User → User} {u : User} :
    ∀ {db : List User}, db.find? p = some u → p (f u) = true →
      (updateFirst p f db).find? p = some (f u) := by
  intro db
  induction db with
  | nil => intro h _; simp at h
  | cons a as ih =>
    intro h hfu
    by_cases hp : p a
    · rw [List.find?_cons_of_pos _ hp] at h
      injection h with h
      subst h
      rw [updateFirst, if_pos hp, List.find?_cons_of_pos _ hfu]
    · rw [List.find?_cons_of_neg _ hp] at h
      rw [updateFirst, if_neg hp, List.find?_cons_of_neg _ hp, ih h hfu]

/-! ## The status-field invariant (C3) -/

/-- Every stored user's status is one of the two canonical strings. -/
def StatusOk (db : List User) : Prop :=
  ∀ u ∈ db, u.status = "Active" ∨ u.status = "Inactive"

/-- One user-CRUD write operation, with the salts standing for the hash
library's RNG draws. -/
inductive CrudOp where
  | create (salt : Nat) (username full_name password role : String)
  | registerEngineer (salt : Nat) (username full_name password : String)
  | adminUpdate (salt : Nat) (user_id : Nat) (updates : UserUpdates)
  | engineerUpdateSelf (salt : Nat) (user_id : Nat) (full_name password : Option String)
  | deactivate (user_id : Nat)

/-- The table after one CRUD operation; a raised ValueError commits nothing. -/
def applyCrud (db : List User) : CrudOp → List User
  | CrudOp.create salt un fn pw r => (create_user db salt un fn pw r).1
  | CrudOp.registerEngineer salt un fn pw => (register_engineer db salt un fn pw).1
  | CrudOp.adminUpdate salt uid ups =>
    match admin_update_user db salt uid ups with
    | Except.ok (db2, _) => db2
    | Except.error _ => db
  | CrudOp.engineerUpdateSelf salt uid fn pw => (engineer_update_self db salt uid fn pw).1
  | CrudOp.deactivate uid => (deactivate_user db uid).1

theorem normalize_user_status_cases {sv : Option String} {ns : String}
    (h : normalize_user_status sv = some ns) : ns = "Active" ∨ ns = "Inactive" := by
  cases sv with
  | none => simp [normalize_user_status] at h
  | some s =>
    rw [normalize_user_status] at h
    split at h
    · exact Or.inl (Option.some.injEq .. ▸ h.symm ▸ rfl)
    · split at h
      · exact Or.inr (Option.some.injEq .. ▸ h.symm ▸ rfl)
      · exact absurd h (by simp)

theorem applyFullNameKey_status (fn : Option String) (u : User) :
    (applyFullNameKey fn u).status = u.status := by
  cases fn <;> rfl

theorem applyUsernameKey_status (un : Option String) (u : User) :
    (applyUsernameKey un u).status = u.status := by
  cases un <;> rfl

theorem applyRoleKey_status (r : Option String) (u : User) :
    (applyRoleKey r u).status = u.status := by
  cases r <;> rfl

theorem applyPasswordKey_status (salt : Nat) (pw : Option String) (u : User) :
    (applyPasswordKey salt pw u).status = u.status := by
  cases pw <;> rfl

theorem truthyFullName_status (fn : Option String) (u : User) :
    (truthyFullName fn u).status = u.status := by
  cases fn with
  | none => rfl
  | some v => rw [truthyFullName]; split <;> rfl

theorem truthyPassword_status (salt : Nat) (pw : Option String) (u : User) :
    (truthyPassword salt pw u).status = u.status := by
  cases pw with
  | none => rfl
  | some v => rw [truthyPassword]; split <;> rfl

theorem admin_apply_status {salt : Nat} {ups : UserUpdates} {user u2 : User}
    (h : admin_apply salt ups user = Except.ok u2) :
    u2.status = user.status ∨ u2.status = "Active" ∨ u2.status = "Inactive" := by
  simp only [admin_apply] at h
  split at h
  next sv hst =>
    split at h
    next hn => exact Except.noConfusion h
    next ns hn =>
      injection h with h
      subst h
      right
      rw [applyPasswordKey_status]
      exact normalize_user_status_cases hn
  next hst =>
    injection h with h
    subst h
    left
    rw [applyPasswordKey_status, applyRoleKey_status, applyUsernameKey_status,
      applyFullNameKey_status]

/-- C3: starting from a table where every status is "Active" or
"Inactive", every user CRUD operation preserves that; create_user always
stores status "Active"; and admin_update_user on an existing user raises
ValueError when the requested status is not recognized by
normalize_user_status. -/
theorem user_crud_status_invariant :
    (∀ (db : List User) (op : CrudOp), StatusOk db → StatusOk (applyCrud db op)) ∧
    (∀ (db : List User) (salt : Nat) (un fn pw role : String),
      ((create_user db salt un fn pw role).2).status = "Active") ∧
    (∀ (db : List User) (salt uid : Nat) (ups : UserUpdates) (sv : Option String),
      (get_user_by_id db uid).isSome → ups.status = some sv →
      normalize_user_status sv = none →
      ∃ e, admin_update_user db salt uid ups = Except.error e) := by
  refine ⟨?_, fun _ _ _ _ _ _ => rfl, ?_⟩
  · intro db op h
    cases op with
    | create salt un fn pw r =>
      intro u hu
      simp only [applyCrud, create_user, List.mem_append, List.mem_singleton] at hu
      rcases hu with hu | rfl
      · exact h u hu
      · exact Or.inl rfl
    | registerEngineer salt un fn pw =>
      intro u hu
      simp only [applyCrud, register_engineer, create_user, List.mem_append,
        List.mem_singleton] at hu
      rcases hu with hu | rfl
      · exact h u hu
      · exact Or.inl rfl
    | adminUpdate salt uid ups =>
      rw [applyCrud]
      split
      next db2 x heq =>
        rw [admin_update_user] at heq
        split at heq
        next => injection heq with heq; exact (Prod.mk.injEq .. ▸ heq : _ ∧ _).1 ▸ h
        next user hfind =>
          split at heq
          next => exact Except.noConfusion heq
          next user2 happly =>
            injection heq with heq
            have hdb2 : db2 = updateFirst (fun u => u.user_id == uid) (fun _ => user2) db :=
              ((Prod.mk.injEq .. ▸ heq : _ ∧ _).1).symm
            subst hdb2
            intro v hv
            rcases mem_updateFirst hv with hv | ⟨u, _, rfl⟩
            · exact h v hv
            · rcases admin_apply_status happly with hs | hs
              · exact hs ▸ h user (List.mem_of_find?_eq_some hfind)
              · exact hs
      next => exact h
    | engineerUpdateSelf salt uid fn pw =>
      rw [applyCrud]
      cases hfind : get_user_by_id db uid with
      | none => simp only [engineer_update_self, hfind]; exact h
      | some user =>
        simp only [engineer_update_self, hfind]
        intro v hv
        rcases mem_updateFirst hv with hv | ⟨u, _, rfl⟩
        · exact h v hv
        · rw [truthyPassword_status, truthyFullName_status]
          exact h user (List.mem_of_find?_eq_some hfind)
    | deactivate uid =>
      rw [applyCrud]
      cases hfind : get_user_by_id db uid with
      | none => simp only [deactivate_user, hfind]; exact h
      | some user =>
        simp only [deactivate_user, hfind]
        intro v hv
        rcases mem_updateFirst hv with hv | ⟨u, _, rfl⟩
        · exact h v hv
        · exact Or.inr rfl
  · intro db salt uid ups sv hsome hst hn
    cases hfind : get_user_by_id db uid with
    | none => rw [hfind] at hsome; exact absurd hsome (by simp)
    | some user =>
      cases hres : admin_update_user db salt uid ups with
      | error e => exact ⟨e, rfl⟩
      | ok val =>
        exfalso
        simp only [admin_update_user, hfind] at hres
        simp [admin_apply, hst, hn] at hres

/-- Witness for C3 on a one-user table: deactivation keeps the invariant,
and an unrecognized status makes admin_update_user raise. -/
theorem user_crud_status_invariant_witness :
    StatusOk (applyCrud [User.mk 1 "admin" "Ad Min" none (HashedPassword.mk 0 0) "Admin" "Active"]
      (CrudOp.deactivate 1)) ∧
    (∃ e, admin_update_user [User.mk 1 "admin" "Ad Min" none (HashedPassword.mk 0 0) "Admin" "Active"]
      0 1 (UserUpdates.mk none none none (some (some "weird")) none) = Except.error e) :=
  ⟨user_crud_status_invariant.1 _ (CrudOp.deactivate 1) (by unfold StatusOk; decide),
   user_crud_status_invariant.2.2 _ 0 1 _ (some "weird") (by decide) rfl (by decide)⟩

/-- C5: deactivate_user is a frame-preserving status change: on an
existing user it returns that user with status set to "Inactive" and
every other field untouched, and get_user_by_id still finds the user
afterwards; on a missing user_id it returns None and leaves the table
unchanged. -/
theorem deactivate_user_frame (db : List User) (uid : Nat) :
    (∀ u, get_user_by_id db uid = some u →
      (deactivate_user db uid).2 = some { u with status := "Inactive" } ∧
      get_user_by_id (deactivate_user db uid).1 uid = some { u with status := "Inactive" } ∧
      ({ u with status := "Inactive" } : User).username = u.username ∧
      ({ u with status := "Inactive" } : User).full_name = u.full_name ∧
      ({ u with status := "Inactive" } : User).password = u.password ∧
      ({ u with status := "Inactive" } : User).role = u.role ∧
      ({ u with status := "Inactive" } : User).user_id = u.user_id ∧
      ({ u with status := "Inactive" } : User).status = "Inactive") ∧
    (get_user_by_id db uid = none → deactivate_user db uid = (db, none)) := by
  constructor
  · intro u hu
    refine ⟨?_, ?_, rfl, rfl, rfl, rfl, rfl, rfl⟩
    · simp only [deactivate_user, hu]
    · simp only [deactivate_user, hu]
      have hu' : db.find? (fun x => x.user_id == uid) = some u := hu
      have hp : ((fun x => x.user_id == uid) ({ u with status := "Inactive" } : User)) = true := by
        simpa using List.find?_some hu'
      exact find?_updateFirst (f := fun _ => { u with status := "Inactive" }) hu' hp
  · intro hnone
    simp only [deactivate_user, hnone]

/-- Witness for C5: a two-user table, deactivating user 2, and looking up
a missing user 7. -/
theorem deactivate_user_frame_witness :
    (deactivate_user
        [User.mk 1 "admin" "Ad Min" none (HashedPassword.mk 0 0) "Admin" "Active",
         User.mk 2 "eng" "En Gineer" none (HashedPassword.mk 1 1) "Engineer" "Active"] 2).2 =
      some (User.mk 2 "eng" "En Gineer" none (HashedPassword.mk 1 1) "Engineer" "Inactive") ∧
    deactivate_user
        [User.mk 1 "admin" "Ad Min" none (HashedPassword.mk 0 0) "Admin" "Active",
         User.mk 2 "eng" "En Gineer" none (HashedPassword.mk 1 1) "Engineer" "Active"] 7 =
      ([User.mk 1 "admin" "Ad Min" none (HashedPassword.mk 0 0) "Admin" "Active",
        User.mk 2 "eng" "En Gineer" none (HashedPassword.mk 1 1) "Engineer" "Active"], none) :=
  ⟨((deactivate_user_frame _ 2).1
      (User.mk 2 "eng" "En Gineer" none (HashedPassword.mk 1 1) "Engineer" "Active")
      (by decide)).1,
   (deactivate_user_frame _ 7).2 (by decide)⟩

/-! ## Pagination in the user-management view
(user_management.py lines 29-33, 88-93, 309-327)

The pagination state of UserManagementView; Python integers are modelled
as Int.  The `_refresh_users` call at the end of `_prev_page` /
`_next_page` reloads the rows but, for a fixed user table, returns the
same totals, so total_pages is carried unchanged. -/

structure PageState where
  current_page : Int
  total_pages : Int
deriving Repr, DecidableEq

/-- user_management._prev_page: decrement only when current_page > 1. -/
def prev_page (s : PageState) : PageState :=
  if s.current_page > 1 then PageState.mk (s.current_page - 1) s.total_pages else s

/-- user_management._next_page: increment only when below total_pages. -/
def next_page (s : PageState) : PageState :=
  if s.current_page < s.total_pages then PageState.mk (s.current_page + 1) s.total_pages else s

inductive PageOp where
  | prev
  | next
deriving Repr, DecidableEq

def applyPageOp (s : PageState) : PageOp → PageState
  | PageOp.prev => prev_page s
  | PageOp.next => next_page s

/-- A sequence of Previous / Next button clicks. -/
def applyPageOps (s : PageState) (ops : List PageOp) : PageState :=
  ops.foldl applyPageOp s

theorem applyPageOp_bounds {s : PageState} (h1 : 1 ≤ s.current_page)
    (h2 : s.current_page ≤ s.total_pages) (op : PageOp) :
    1 ≤ (applyPageOp s op).current_page ∧
      (applyPageOp s op).current_page ≤ (applyPageOp s op).total_pages ∧
      (applyPageOp s op).total_pages = s.total_pages := by
  cases op with
  | prev =>
    simp only [applyPageOp, prev_page]
    split <;> simp_all <;> omega
  | next =>
    simp only [applyPageOp, next_page]
    split <;> simp_all <;> omega

theorem applyPageOps_bounds {s : PageState} (h1 : 1 ≤ s.current_page)
    (h2 : s.current_page ≤ s.total_pages) (ops : List PageOp) :
    1 ≤ (applyPageOps s ops).current_page ∧
      (applyPageOps s ops).current_page ≤ (applyPageOps s ops).total_pages ∧
      (applyPageOps s ops).total_pages = s.total_pages := by
  induction ops generalizing s with
  | nil => exact ⟨h1, h2, rfl⟩
  | cons op ops ih =>
    rcases applyPageOp_bounds h1 h2 op with ⟨g1, g2, g3⟩
    rcases ih g1 g2 with ⟨b1, b2, b3⟩
    exact ⟨b1, b2, b3.trans g3⟩

/-- C6: starting from current_page = 1 with total_pages >= 1, every
sequence of _prev_page and _next_page calls keeps 1 <= current_page <=
total_pages; moreover _next_page steps only when current_page <
total_pages and _prev_page only when current_page > 1. -/
theorem pagination_page_bounds (tp : Int) (htp : 1 ≤ tp) (ops : List PageOp) :
    (1 ≤ (applyPageOps (PageState.mk 1 tp) ops).current_page ∧
      (applyPageOps (PageState.mk 1 tp) ops).current_page ≤ tp) ∧
    (∀ s : PageState, ¬ s.current_page < s.total_pages → next_page s = s) ∧
    (∀ s : PageState, ¬ s.current_page > 1 → prev_page s = s) := by
  refine ⟨?_, fun s hs => ?_, fun s hs => ?_⟩
  · rcases applyPageOps_bounds (s := PageState.mk 1 tp) (le_refl 1) htp ops with ⟨b1, b2, b3⟩
    exact ⟨b1, le_trans b2 (le_of_eq b3)⟩
  · rw [next_page, if_neg hs]
  · rw [prev_page, if_neg hs]

/-- Witness for C6: three pages, a click sequence that hits both guards. -/
theorem pagination_page_bounds_witness :
    1 ≤ (applyPageOps (PageState.mk 1 3)
        [PageOp.prev, PageOp.next, PageOp.next, PageOp.next, PageOp.next]).current_page ∧
    (applyPageOps (PageState.mk 1 3)
        [PageOp.prev, PageOp.next, PageOp.next, PageOp.next, PageOp.next]).current_page ≤ 3 :=
  (pagination_page_bounds 3 (by decide)
    [PageOp.prev, PageOp.next, PageOp.next, PageOp.next, PageOp.next]).1

/-- user_management._update_pagination_display line 322:
start = (current_page - 1) * per_page + 1. -/
def pagination_start (current_page per_page : Int) : Int :=
  (current_page - 1) * per_page + 1

/-- user_management._update_pagination_display line 323:
end = min(current_page * per_page, total_users). -/
def pagination_end (current_page per_page total_users : Int) : Int :=
  min (current_page * per_page) total_users

/-- user_management._add_user_row line 93:
display_idx = (current_page - 1) * per_page + index. -/
def display_index (current_page per_page index : Int) : Int :=
  (current_page - 1) * per_page + index

/-- C7: with per_page = 25, for every page p >= 1 and total_users n > 0
the displayed range is (p - 1) * 25 + 1 through min (p * 25) n, and row i
of the page carries running number (p - 1) * 25 + i. -/
theorem pagination_display_arithmetic (p n i : Int) (hp : 1 ≤ p) (hn : 0 < n) :
    pagination_start p 25 = (p - 1) * 25 + 1 ∧
    pagination_end p 25 n = min (p * 25) n ∧
    display_index p 25 i = (p - 1) * 25 + i ∧
    display_index p 25 1 = pagination_start p 25 ∧
    (i ≥ 1 → pagination_start p 25 ≤ display_index p 25 i) :=
  ⟨rfl, rfl, rfl, rfl, fun hi => by simp only [pagination_start, display_index]; omega⟩

/-- Witness for C7 at page 3 of 60 users, row 4. -/
theorem pagination_display_arithmetic_witness :
    pagination_start 3 25 = 51 ∧ pagination_end 3 25 60 = 60 ∧
      display_index 3 25 4 = 54 := by
  have h := pagination_display_arithmetic 3 60 4 (by decide) (by decide)
  refine ⟨h.1.trans (by decide), (h.2.1).trans (by decide), (h.2.2.1).trans (by decide)⟩

/-! ## ViewState file selection (state_manager.py lines 16, 25-28, 45-52) -/

/-- The selected_files list of ViewState, with its two mutators.  add_file
appends only when the path is not already present. -/
def add_file (selected_files : List String) (file_path : String) : List String :=
  if file_path ∈ selected_files then selected_files else selected_files ++ [file_path]

/-- ViewState.clear_files. -/
def clear_files (_selected_files : List String) : List String := []

/-- ViewState.has_files: len(selected_files) > 0. -/
def has_files (selected_files : List String) : Bool :=
  selected_files.length > 0

inductive FileOp where
  | add (file_path : String)
  | clear
deriving Repr, DecidableEq

def applyFileOp (s : List String) : FileOp → List String
  | FileOp.add p => add_file s p
  | FileOp.clear => clear_files s

/-- The selected_files list after a sequence of operations on the initial
empty ViewState. -/
def runFileOps (ops : List FileOp) : List String :=
  ops.foldl applyFileOp []

theorem add_file_nodup {s : List String} (h : s.Nodup) (p : String) :
    (add_file s p).Nodup := by
  rw [add_file]
  split
  · exact h
  · next hnot => simpa using List.Nodup.append h (List.nodup_singleton p) (by simpa using hnot)

theorem applyFileOp_nodup {s : List String} (h : s.Nodup) (op : FileOp) :
    (applyFileOp s op).Nodup := by
  cases op with
  | add p => exact add_file_nodup h p
  | clear => exact List.nodup_nil

/-- C8: from the empty state, any sequence of add_file / clear_files
leaves selected_files duplicate-free; adding an already present path is
the identity (so adding twice equals adding once); and has_files is true
exactly when selected_files is non-empty. -/
theorem view_state_file_invariant :
    (∀ ops : List FileOp, (runFileOps ops).Nodup) ∧
    (∀ (s : List String) (p : String), add_file (add_file s p) p = add_file s p) ∧
    (∀ s : List String, has_files s = true ↔ s ≠ []) := by
  refine ⟨?_, ?_, ?_⟩
  · intro ops
    suffices h : ∀ (s : List String), s.Nodup → (ops.foldl applyFileOp s).Nodup from
      h [] List.nodup_nil
    induction ops with
    | nil => exact fun s hs => hs
    | cons op ops ih => exact fun s hs => ih _ (applyFileOp_nodup hs op)
  · intro s p
    have hmem : p ∈ add_file s p := by
      rw [add_file]; split
      · assumption
      · simp
    rw [add_file, if_pos hmem]
  · intro s
    rw [has_files]
    cases s <;> simp

/-! ## Excel upload gating (excel_validator.py)

Filesystem probing (`_find_excel_file`, mtimes) and the Excel reading of
`_get_equipment_with_work` are external effects; get_excel_file_info is
embedded as a function of their outcomes: the file found in the updated
directory, the file found in the default directory, the set of equipment
numbers with work read from a file, and the mtimes. -/

inductive ExcelFileType where
  | DEFAULT
  | UPDATED
  | NOT_FOUND
deriving Repr, DecidableEq

structure ExcelFileInfo where
  file_type : ExcelFileType
  file_path : Option String
  has_work_done : Bool
  equipment_with_work : List String
  last_modified : Option Nat
deriving Repr, DecidableEq

/-- ExcelValidator.get_excel_file_info: prefer the updated file, then the
default file, else NOT_FOUND. -/
def get_excel_file_info (updated_file default_file : Option String)
    (equipment_of : String → List String) (mtime : String → Nat) : ExcelFileInfo :=
  match updated_file with
  | some uf =>
    ExcelFileInfo.mk ExcelFileType.UPDATED (some uf)
      ((equipment_of uf).length > 0) (equipment_of uf) (some (mtime uf))
  | none =>
    match default_file with
    | some df =>
      ExcelFileInfo.mk ExcelFileType.DEFAULT (some df) false [] (some (mtime df))
    | none => ExcelFileInfo.mk ExcelFileType.NOT_FOUND none false [] none

/-- ExcelValidator.can_upload_equipment. -/
def can_upload_equipment (excel_file_info : ExcelFileInfo)
    (equipment_number : String) : Bool × String :=
  if excel_file_info.file_type = ExcelFileType.NOT_FOUND then
    (false, "No Excel file found. Please upload default file first.")
  else if equipment_number ∈ excel_file_info.equipment_with_work then
    (false, "Equipment " ++ equipment_number ++ " already has work done. Cannot re-upload.")
  else
    (true, "OK")

/-- C9: can_upload_equipment answers (true, "OK") exactly when the file
type is not NOT_FOUND and the equipment number has no work done; and for
a DEFAULT file as built by get_excel_file_info (empty equipment_with_work,
has_work_done false) every equipment number may upload. -/
theorem can_upload_equipment_spec :
    (∀ (info : ExcelFileInfo) (eq_no : String),
      can_upload_equipment info eq_no = (true, "OK") ↔
        (info.file_type ≠ ExcelFileType.NOT_FOUND ∧
          eq_no ∉ info.equipment_with_work)) ∧
    (∀ (df : String) (equipment_of : String → List String) (mtime : String → Nat),
      (get_excel_file_info none (some df) equipment_of mtime).file_type =
          ExcelFileType.DEFAULT ∧
      (get_excel_file_info none (some df) equipment_of mtime).equipment_with_work = [] ∧
      (get_excel_file_info none (some df) equipment_of mtime).has_work_done = false ∧
      ∀ eq_no : String,
        can_upload_equipment (get_excel_file_info none (some df) equipment_of mtime) eq_no =
          (true, "OK")) := by
  constructor
  · intro info eq_no
    constructor
    · intro h
      rw [can_upload_equipment] at h
      split at h
      · exact absurd h (by simp)
      · next hnf =>
        split at h
        · exact absurd h (by simp)
        · next hmem => exact ⟨hnf, hmem⟩
    · rintro ⟨hnf, hmem⟩
      rw [can_upload_equipment, if_neg hnf, if_neg hmem]
  · intro df equipment_of mtime
    refine ⟨rfl, rfl, rfl, fun eq_no => ?_⟩
    rw [can_upload_equipment]
    simp [get_excel_file_info]

/-! ## Analytics period parsing (admin_analytics_service.py lines 368-394)

datetime.utcnow() values are modelled by their UTC calendar day (an
integer day number) plus the time-of-day fields that replace() and the
day-granular timedelta subtractions touch. -/

structure PyDateTime where
  day : Int
  hour : Nat
  minute : Nat
  second : Nat
  microsecond : Nat
deriving Repr, DecidableEq

/-- A datetime as a microsecond count, giving the order on datetimes. -/
def dtMicros (t : PyDateTime) : Int :=
  (((t.day * 24 + (t.hour : Int)) * 60 + (t.minute : Int)) * 60 + (t.second : Int)) * 1000000
    + (t.microsecond : Int)

/-- admin_analytics_service._calculate_date_range, as a function of the
current UTC time `now`. -/
def calculate_date_range (now : PyDateTime) (period : String) :
    Option PyDateTime × Option PyDateTime :=
  if period = "all" then
    (none, none)
  else if period = "today" then
    (some (PyDateTime.mk now.day 0 0 0 0),
     some (PyDateTime.mk now.day 23 59 59 999999))
  else if period = "last_7_days" then
    (some (PyDateTime.mk (now.day - 7) now.hour now.minute now.second now.microsecond),
     some now)
  else if period = "last_month" then
    (some (PyDateTime.mk (now.day - 30) now.hour now.minute now.second now.microsecond),
     some now)
  else
    (none, none)

/-- C10: calculate_date_range is total by construction; any period
outside the four known ones yields (none, none), the same as "all"; and
for "today" the start is not after the end and both carry the same UTC
day, the day of now. -/
theorem calculate_date_range_spec (now : PyDateTime) (period : String) :
    (period ∉ ["all", "today", "last_7_days", "last_month"] →
      calculate_date_range now period = (none, none) ∧
      calculate_date_range now period = calculate_date_range now "all") ∧
    (∀ s e : PyDateTime,
      calculate_date_range now "today" = (some s, some e) →
      dtMicros s ≤ dtMicros e ∧ s.day = e.day ∧ s.day = now.day) := by
  constructor
  · intro hnot
    simp only [List.mem_cons, List.not_mem_nil, or_false, not_or] at hnot
    obtain ⟨h1, h2, h3, h4⟩ := hnot
    rw [calculate_date_range, if_neg h1, if_neg h2, if_neg h3, if_neg h4]
    exact ⟨rfl, rfl⟩
  · intro s e h
    rw [calculate_date_range] at h
    simp only [reduceIte, String.reduceEq, if_false, if_true] at h
    obtain ⟨hs, he⟩ := Prod.mk.injEq .. ▸ h
    injection hs with hs
    injection he with he
    subst hs he
    refine ⟨?_, rfl, rfl⟩
    simp only [dtMicros]
    omega

/-- Witness for C10: an unknown period behaves like "all", and the
"today" window is well-formed; now = day 19700, 15:30:00. -/
theorem calculate_date_range_spec_witness :
    calculate_date_range (PyDateTime.mk 19700 15 30 0 0) "last_week" = (none, none) ∧
    dtMicros (PyDateTime.mk 19700 0 0 0 0) ≤ dtMicros (PyDateTime.mk 19700 23 59 59 999999) :=
  ⟨((calculate_date_range_spec (PyDateTime.mk 19700 15 30 0 0) "last_week").1 (by decide)).1,
   (((calculate_date_range_spec (PyDateTime.mk 19700 15 30 0 0) "today").2
      (PyDateTime.mk 19700 0 0 0 0) (PyDateTime.mk 19700 23 59 59 999999) rfl)).1⟩

/-! ## Admin analytics service (admin_analytics_service.py)

The CRUD aggregation functions it calls (user_analytics_crud, work_crud)
are not in src; each is passed in as a function of the computed date
range returning either a value or a raised exception (`Except.error`,
caught by the service's `except Exception` clause; the analytics CRUD
raises no UnauthorizedAccessError, which only check_admin_permission
raises).  Each service function is total: every exception from the try
body is converted to a result dictionary, never re-raised. -/

/-- The service's result dictionary: success, and the optional data,
message and error_type keys (a key absent from the returned dict is
none). -/
structure ServiceResult (α : Type) where
  success : Bool
  data : Option α
  message : Option String
  error_type : Option String
deriving Repr

/-- admin_analytics_service.check_admin_permission: raises
UnauthorizedAccessError unless the session role is "Admin". -/
def check_admin_permission (role : Option String) : Except String Unit :=
  if role ≠ some "Admin" then
    Except.error "Analytics features are only available to administrators"
  else
    Except.ok ()

/-- The summary dict of get_user_performance_summary after enrichment
with the user's details; the base payload from get_user_activity_summary
is opaque. -/
structure PerfSummary (α : Type) where
  base : α
  username : String
  full_name : String
  email : Option String
  role : String
deriving Repr

/-- admin_analytics_service.get_user_performance_summary; summaryFn is
the get_user_activity_summary call on the computed date range. -/
def get_user_performance_summary {α : Type} (db : List User) (role : Option String)
    (user_id : Nat) (period : String) (now : PyDateTime)
    (summaryFn : Option PyDateTime × Option PyDateTime → Except String α) :
    ServiceResult (PerfSummary α) :=
  match check_admin_permission role with
  | Except.error e => ServiceResult.mk false none (some e) (some "unauthorized")
  | Except.ok _ =>
    match summaryFn (calculate_date_range now period) with
    | Except.error _ =>
      ServiceResult.mk false none
        (some "Failed to retrieve performance summary. Please try again.")
        (some "system_error")
    | Except.ok summary =>
      match get_user_by_id db user_id with
      | none =>
        ServiceResult.mk false none
          (some ("User with ID " ++ toString user_id ++ " not found")) none
      | some user =>
        ServiceResult.mk true
          (some (PerfSummary.mk summary user.username user.full_name user.email user.role))
          none none

/-- One row of get_team_performance_comparison's result. -/
structure TeamMember where
  total_actions : Int
  equipment_extracted : Int
  avg_time_per_equipment_minutes : ℚ
deriving Repr

/-- The team summary dict computed by get_team_comparison. -/
structure TeamSummary where
  total_engineers : Nat
  total_team_actions : Int
  total_equipment_extracted : Int
  team_avg_time_per_equipment : ℚ
  period : String
deriving Repr

/-- Python's round(x, 2); the model rounds half away from zero where
Python rounds half to even, a difference immaterial to the claims here. -/
def pyRound2 (q : ℚ) : ℚ :=
  ((round (q * 100) : Int) : ℚ) / 100

/-- admin_analytics_service.get_team_comparison; teamFn is the
get_team_performance_comparison call. -/
def get_team_comparison (role : Option String) (period : String) (now : PyDateTime)
    (teamFn : Option PyDateTime × Option PyDateTime → Except String (List TeamMember)) :
    ServiceResult (List TeamMember × TeamSummary) :=
  match check_admin_permission role with
  | Except.error e => ServiceResult.mk false none (some e) (some "unauthorized")
  | Except.ok _ =>
    match teamFn (calculate_date_range now period) with
    | Except.error _ =>
      ServiceResult.mk false none
        (some "Failed to retrieve team comparison. Please try again.")
        (some "system_error")
    | Except.ok team_data =>
      let total_engineers := team_data.length
      let total_actions := (team_data.map TeamMember.total_actions).sum
      let total_equipment := (team_data.map TeamMember.equipment_extracted).sum
      let pos := team_data.filter (fun u => decide (0 < u.avg_time_per_equipment_minutes))
      let avg_time : ℚ :=
        if team_data.any (fun u => decide (0 < u.avg_time_per_equipment_minutes)) then
          (pos.map TeamMember.avg_time_per_equipment_minutes).sum / (pos.length : ℚ)
        else 0
      ServiceResult.mk true
        (some (team_data,
          TeamSummary.mk total_engineers total_actions total_equipment
            (pyRound2 avg_time) period))
        none none

/-- The Work record read by get_work_timeline (models.py is not in src;
the fields are the ones the service reads). -/
structure Work where
  work_id : Nat
  work_name : String
  status : String
  created_at : Option PyDateTime
deriving Repr

/-- datetime.isoformat(), an injective rendering of the modelled fields. -/
def dtIso (t : PyDateTime) : String :=
  toString t.day ++ "T" ++ toString t.hour ++ ":" ++ toString t.minute ++ ":"
    ++ toString t.second ++ "." ++ toString t.microsecond

/-- The work_info dict of get_work_timeline. -/
structure WorkInfo where
  work_id : Nat
  work_name : String
  status : String
  created_at : Option String
deriving Repr

/-- admin_analytics_service.get_work_timeline; timelineRes is the
get_work_duration_by_user call (opaque payload), workRes the
get_work_by_id query. -/
def get_work_timeline {β : Type} (role : Option String) (work_id : Nat)
    (timelineRes : Except String β) (workRes : Except String (Option Work)) :
    ServiceResult (β × WorkInfo) :=
  match check_admin_permission role with
  | Except.error e => ServiceResult.mk false none (some e) (some "unauthorized")
  | Except.ok _ =>
    match timelineRes with
    | Except.error _ =>
      ServiceResult.mk false none
        (some "Failed to retrieve work timeline. Please try again.")
        (some "system_error")
    | Except.ok timeline_data =>
      match workRes with
      | Except.error _ =>
        ServiceResult.mk false none
          (some "Failed to retrieve work timeline. Please try again.")
          (some "system_error")
      | Except.ok none =>
        ServiceResult.mk false none
          (some ("Work with ID " ++ toString work_id ++ " not found")) none
      | Except.ok (some work) =>
        ServiceResult.mk true
          (some (timeline_data,
            WorkInfo.mk work.work_id work.work_name work.status
              (work.created_at.map dtIso)))
          none none

/-- One row of get_hourly_productivity's result. -/
structure HourEntry where
  hour : Nat
  action_count : Int
deriving Repr

/-- One row of get_daily_activity's result. -/
structure DayEntry where
  date : String
  action_count : Int
deriving Repr

/-- Python max(xs, key=f) over x :: xs: keeps the current element unless
a strictly larger key appears, so ties go to the earliest element. -/
def pyMaxBy {α : Type} (f : α → Int) (x : α) (xs : List α) : α :=
  xs.foldl (fun best y => if f y > f best then y else best) x

/-- Python min(xs, key=f) over x :: xs. -/
def pyMinBy {α : Type} (f : α → Int) (x : α) (xs : List α) : α :=
  xs.foldl (fun best y => if f y < f best then y else best) x

/-- The peak_hours dict of get_productivity_insights ({} when there is no
hourly data, hence the Option at the use site). -/
structure PeakHours where
  most_productive_hour : Nat
  most_productive_count : Int
  least_productive_hour : Nat
  least_productive_count : Int
deriving Repr

/-- The insights dict of get_productivity_insights. -/
structure Insights where
  total_days_active : Nat
  avg_actions_per_day : ℚ
  most_active_day : Option String
deriving Repr

/-- The data payload of get_productivity_insights. -/
structure ProductivityData where
  hourly_productivity : List HourEntry
  daily_activity : List DayEntry
  peak_hours : Option PeakHours
  insights : Insights
deriving Repr

/-- admin_analytics_service.get_productivity_insights; hourlyFn and
dailyFn are the two CRUD aggregation calls on the computed date range
(user_id is threaded to them by the caller). -/
def get_productivity_insights (role : Option String) (period : String)
    (now : PyDateTime)
    (hourlyFn : Option PyDateTime × Option PyDateTime → Except String (List HourEntry))
    (dailyFn : Option PyDateTime × Option PyDateTime → Except String (List DayEntry)) :
    ServiceResult ProductivityData :=
  match check_admin_permission role with
  | Except.error e => ServiceResult.mk false none (some e) (some "unauthorized")
  | Except.ok _ =>
    match hourlyFn (calculate_date_range now period) with
    | Except.error _ =>
      ServiceResult.mk false none
        (some "Failed to retrieve productivity insights. Please try again.")
        (some "system_error")
    | Except.ok hourly_data =>
      match dailyFn (calculate_date_range now period) with
      | Except.error _ =>
        ServiceResult.mk false none
          (some "Failed to retrieve productivity insights. Please try again.")
          (some "system_error")
      | Except.ok daily_data =>
        let peak_hours : Option PeakHours :=
          match hourly_data with
          | [] => none
          | h :: t =>
            some (PeakHours.mk
              (pyMaxBy HourEntry.action_count h t).hour
              (pyMaxBy HourEntry.action_count h t).action_count
              (pyMinBy HourEntry.action_count h t).hour
              (pyMinBy HourEntry.action_count h t).action_count)
        let insights : Insights :=
          Insights.mk daily_data.length
            (match daily_data with
              | [] => 0
              | _ :: _ =>
                pyRound2 (((daily_data.map DayEntry.action_count).sum : ℚ) /
                  (daily_data.length : ℚ)))
            (match daily_data with
              | [] => none
              | d :: t => some (pyMaxBy DayEntry.action_count d t).date)
        ServiceResult.mk true
          (some (ProductivityData.mk hourly_data daily_data peak_hours insights))
          none none

/-- The error-conversion shape of a service result, relative to the
caller's role: an unsuccessful result carries a message; any error_type
present is "unauthorized" or "system_error"; and it is "unauthorized"
exactly when the role is not "Admin". -/
def ErrorShapeOk {α : Type} (role : Option String) (r : ServiceResult α) : Prop :=
  (r.success = false → r.message.isSome = true) ∧
  (∀ t, r.error_type = some t → t = "unauthorized" ∨ t = "system_error") ∧
  (r.error_type = some "unauthorized" ↔ role ≠ some "Admin")

theorem errshape_unauthorized {α : Type} {role : Option String} {m : String}
    (h : ¬ role = some "Admin") :
    ErrorShapeOk (α := α) role (ServiceResult.mk false none (some m) (some "unauthorized")) := by
  refine ⟨fun _ => rfl, fun t ht => Or.inl ?_, ⟨fun _ => h, fun _ => rfl⟩⟩
  injection ht with ht
  exact ht.symm

theorem errshape_system {α : Type} {role : Option String} {m : String}
    (h : role = some "Admin") :
    ErrorShapeOk (α := α) role (ServiceResult.mk false none (some m) (some "system_error")) := by
  refine ⟨fun _ => rfl, fun t ht => Or.inr ?_, ?_⟩
  · injection ht with ht; exact ht.symm
  · constructor
    · intro ht; injection ht with ht; exact absurd ht.symm (by decide)
    · intro hne; exact absurd h hne

theorem errshape_nofound {α : Type} {role : Option String} {m : String}
    (h : role = some "Admin") :
    ErrorShapeOk (α := α) role (ServiceResult.mk false none (some m) none) := by
  refine ⟨fun _ => rfl, fun t ht => absurd ht (by simp), ?_⟩
  constructor
  · intro ht; exact absurd ht (by simp)
  · intro hne; exact absurd h hne

theorem errshape_success {α : Type} {role : Option String} {d : α}
    (h : role = some "Admin") :
    ErrorShapeOk (α := α) role (ServiceResult.mk true (some d) none none) := by
  refine ⟨fun hfalse => absurd hfalse (by simp), fun t ht => absurd ht (by simp), ?_⟩
  constructor
  · intro ht; exact absurd ht (by simp)
  · intro hne; exact absurd h hne

theorem check_admin_permission_err {role : Option String} (h : ¬ role = some "Admin") :
    check_admin_permission role =
      Except.error "Analytics features are only available to administrators" := by
  rw [check_admin_permission, if_pos h]

theorem check_admin_permission_ok {role : Option String} (h : role = some "Admin") :
    check_admin_permission role = Except.ok () := by
  rw [check_admin_permission, if_neg (by simpa using h)]

/-- Counterexample to C4 as stated: with an Admin caller, a succeeding
CRUD call and a user id absent from the table, get_user_performance_summary
returns an unsuccessful dict that carries no "error_type" key at all
(admin_analytics_service.py lines 84-88), so not every unsuccessful call
carries an error_type from the taxonomy. -/
theorem analytics_error_type_counterexample :
    (get_user_performance_summary ([] : List User) (some "Admin") 1 "all"
        (PyDateTime.mk 0 0 0 0 0) (fun _ => Except.ok ())).success = false ∧
    (get_user_performance_summary ([] : List User) (some "Admin") 1 "all"
        (PyDateTime.mk 0 0 0 0 0) (fun _ => Except.ok ())).error_type = none ∧
    (get_user_performance_summary ([] : List User) (some "Admin") 1 "all"
        (PyDateTime.mk 0 0 0 0 0) (fun _ => Except.ok ())).message =
      some "User with ID 1 not found" :=
  ⟨rfl, rfl, rfl⟩

/-- C4 (amended): the four analytics service functions are total (modelled
as total functions: every exception of the try body is converted, none
escapes); every unsuccessful result carries success = false and a message
string; any error_type present is "unauthorized" or "system_error", and it
is "unauthorized" exactly when the caller's role is not "Admin".  The
user-not-found and work-not-found branches carry no error_type. -/
theorem analytics_service_error_conversion :
    (∀ (α : Type) (db : List User) (role : Option String) (user_id : Nat)
        (period : String) (now : PyDateTime)
        (summaryFn : Option PyDateTime × Option PyDateTime → Except String α),
      ErrorShapeOk role (get_user_performance_summary db role user_id period now summaryFn)) ∧
    (∀ (role : Option String) (period : String) (now : PyDateTime)
        (teamFn : Option PyDateTime × Option PyDateTime → Except String (List TeamMember)),
      ErrorShapeOk role (get_team_comparison role period now teamFn)) ∧
    (∀ (β : Type) (role : Option String) (work_id : Nat)
        (timelineRes : Except String β) (workRes : Except String (Option Work)),
      ErrorShapeOk role (get_work_timeline role work_id timelineRes workRes)) ∧
    (∀ (role : Option String) (period : String) (now : PyDateTime)
        (hourlyFn : Option PyDateTime × Option PyDateTime → Except String (List HourEntry))
        (dailyFn : Option PyDateTime × Option PyDateTime → Except String (List DayEntry)),
      ErrorShapeOk role (get_productivity_insights role period now hourlyFn dailyFn)) := by
  refine ⟨?_, ?_, ?_, ?_⟩
  · intro α db role user_id period now summaryFn
    by_cases hrole : role = some "Admin"
    · simp only [get_user_performance_summary, check_admin_permission_ok hrole]
      cases hs : summaryFn (calculate_date_range now period) with
      | error e => exact errshape_system hrole
      | ok summary =>
        cases hfind : get_user_by_id db user_id with
        | none => exact errshape_nofound hrole
        | some user => exact errshape_success hrole
    · simp only [get_user_performance_summary, check_admin_permission_err hrole]
      exact errshape_unauthorized hrole
  · intro role period now teamFn
    by_cases hrole : role = some "Admin"
    · simp only [get_team_comparison, check_admin_permission_ok hrole]
      cases ht : teamFn (calculate_date_range now period) with
      | error e => exact errshape_system hrole
      | ok team_data => exact errshape_success hrole
    · simp only [get_team_comparison, check_admin_permission_err hrole]
      exact errshape_unauthorized hrole
  · intro β role work_id timelineRes workRes
    by_cases hrole : role = some "Admin"
    · simp only [get_work_timeline, check_admin_permission_ok hrole]
      cases timelineRes with
      | error e => exact errshape_system hrole
      | ok timeline_data =>
        cases workRes with
        | error e => exact errshape_system hrole
        | ok w =>
          cases w with
          | none => exact errshape_nofound hrole
          | some work => exact errshape_success hrole
    · simp only [get_work_timeline, check_admin_permission_err hrole]
      exact errshape_unauthorized hrole
  · intro role period now hourlyFn dailyFn
    by_cases hrole : role = some "Admin"
    · simp only [get_productivity_insights, check_admin_permission_ok hrole]
      cases hh : hourlyFn (calculate_date_range now period) with
      | error e => exact errshape_system hrole
      | ok hourly_data =>
        cases hd : dailyFn (calculate_date_range now period) with
        | error e => exact errshape_system hrole
        | ok daily_data => exact errshape_success hrole
    · simp only [get_productivity_insights, check_admin_permission_err hrole]
      exact errshape_unauthorized hrole

/-- Witness for C4 (amended) at concrete inputs: a non-admin caller gets
error_type "unauthorized"; an admin caller whose CRUD call raises gets
success = false with a message present. -/
theorem analytics_service_error_conversion_witness :
    (get_team_comparison none "all" (PyDateTime.mk 0 0 0 0 0)
        (fun _ => Except.ok [])).error_type = some "unauthorized" ∧
    (get_productivity_insights (some "Admin") "today" (PyDateTime.mk 0 0 0 0 0)
        (fun _ => Except.error "db down") (fun _ => Except.ok [])).message.isSome = true :=
  ⟨(analytics_service_error_conversion.2.1 none "all" (PyDateTime.mk 0 0 0 0 0)
      (fun _ => Except.ok [])).2.2.mpr (by decide),
   (analytics_service_error_conversion.2.2.2 (some "Admin") "today" (PyDateTime.mk 0 0 0 0 0)
      (fun _ => Except.error "db down") (fun _ => Except.ok [])).1 rfl⟩
